import Mathlib

/-!
Verification of the clinic-dashboard domain core: a shallow embedding of the
client-side state container (`src/components/context/ClinicContext.tsx`), the
payment status / balance derivations (payments and analytics pages), the
follow-up urgency classification (`src/pages/patients/index.tsx`), the
dashboard's upcoming-follow-ups view (`src/pages/index.tsx`) and the analytics
patient filter, together with proofs of the specified properties.

Embedding conventions:
* Currency amounts (`number` in the source; whole JOD amounts in every spec
  scenario) are embedded as `Int`; the balance / status logic uses only
  ordered-ring operations, so nothing is lost.
* ISO timestamp strings (`createdAt`, `updatedAt`, `recordedAt`) are embedded
  as abstract clock ticks (`Nat`); the code only ever stores `now` into them
  or compares them.
* A JS `Date` is viewed two ways, matching the two ways the source consumes
  dates: `CalDate` (the `getFullYear`/`getMonth`/`getDate` components, used by
  `calculateAge`) and `JsDate` (epoch time split into a day index and the
  milliseconds elapsed since that day's local midnight, used by the follow-up
  arithmetic, where `setHours(0,0,0,0)` zeroes the sub-day part).
* `String.prototype.trim` is embedded structurally (`jsTrim`) so that concrete
  instances evaluate in the kernel.
-/

namespace Clinic

/-- Calendar-component view of a JS `Date`: the values of `getFullYear`,
`getMonth` (0-based) and `getDate`. Only differences of the fields are ever
used, so the month-numbering convention does not matter. -/
structure CalDate where
  year : Int
  month : Int
  day : Int
deriving DecidableEq, Repr

/-- Embedding of `calculateAge` (`ClinicContext.tsx`): year difference,
decremented when the birthday has not yet occurred this year. The current
date, implicit (`new Date()`) in the source, is an explicit argument. -/
def calculateAge (today : CalDate) (birth : CalDate) : Int :=
  let age := today.year - birth.year
  let monthDiff := today.month - birth.month
  if monthDiff < 0 ∨ (monthDiff = 0 ∧ today.day < birth.day) then age - 1 else age

/-- Milliseconds in a day, as in `getFollowUpStatus` (`pages/patients/index.tsx`). -/
def msInDay : Int := 1000 * 60 * 60 * 24

/-- Epoch view of a JS `Date`: `day` is the local calendar day index and
`msOfDay` the milliseconds elapsed since that day's midnight, so
`getTime() = day * msInDay + msOfDay` and `setHours(0,0,0,0)` zeroes
`msOfDay`. -/
structure JsDate where
  day : Int
  msOfDay : Int
deriving DecidableEq, Repr

/-- Embedding of `date.setHours(0, 0, 0, 0)`. -/
def JsDate.atMidnight (d : JsDate) : JsDate := ⟨d.day, 0⟩

/-- Embedding of `date.getTime()`. -/
def JsDate.getTime (d : JsDate) : Int := d.day * msInDay + d.msOfDay

/-- Embedding of `String.prototype.trim`: drop whitespace from both ends.
Defined structurally (rather than via `String.trim`) so that concrete values
reduce in the kernel; agrees with the source on the ASCII whitespace the
records can contain. -/
def jsTrim (s : String) : String :=
  ⟨((s.data.dropWhile Char.isWhitespace).reverse.dropWhile Char.isWhitespace).reverse⟩

/-- The `gender` enum of `types/clinic.ts`. -/
inductive Gender where
  | male
  | female
deriving DecidableEq, Repr

/-- The `PaymentMethod` enum of `types/clinic.ts`. -/
inductive PaymentMethod where
  | cash
  | card
  | insurance
  | transfer
deriving DecidableEq, Repr

/-- The `PatientContact` record: `phone` required, the rest optional
(`undefined` embedded as `none`). -/
structure PatientContact where
  phone : String
  email : Option String
  address : Option String
  emergencyContactName : Option String
  emergencyContactPhone : Option String
deriving DecidableEq, Repr

/-- The `Patient` record of `types/clinic.ts`. -/
structure Patient where
  id : String
  firstName : String
  lastName : String
  gender : Gender
  birthDate : CalDate
  age : Int
  contact : PatientContact
  chronicConditions : List String
  allergies : List String
  notes : Option String
  createdAt : Nat
  updatedAt : Nat
deriving DecidableEq, Repr

/-- The `VisitVitals` record: four optional free-text measurements. -/
structure VisitVitals where
  bloodPressure : Option String
  heartRate : Option String
  temperature : Option String
  oxygenSaturation : Option String
deriving DecidableEq, Repr

/-- The `Visit` record of `types/clinic.ts`. -/
structure Visit where
  id : String
  patientId : String
  visitDate : JsDate
  reason : String
  complaints : List String
  diagnoses : List String
  notes : Option String
  treatmentPlan : Option String
  followUpDate : Option JsDate
  vitals : VisitVitals
  attendingPhysician : Option String
  createdAt : Nat
  updatedAt : Nat
deriving DecidableEq, Repr

/-- The `Payment` record of `types/clinic.ts`; amounts embedded as `Int`. -/
structure Payment where
  id : String
  patientId : String
  visitId : Option String
  amountDue : Int
  amountPaid : Int
  method : PaymentMethod
  invoiceNumber : Option String
  recordedAt : Nat
  updatedAt : Nat
  notes : Option String
deriving DecidableEq, Repr

/-- The `ClinicState` aggregate: three parallel ordered collections. -/
structure ClinicState where
  patients : List Patient
  visits : List Visit
  payments : List Payment
deriving DecidableEq, Repr

/-- The `ClinicAction` tagged union of `ClinicContext.tsx`. -/
inductive ClinicAction where
  | ADD_PATIENT (payload : Patient)
  | UPDATE_PATIENT (payload : Patient)
  | ADD_VISIT (payload : Visit)
  | UPDATE_VISIT (payload : Visit)
  | ADD_PAYMENT (payload : Payment)
  | UPDATE_PAYMENT (payload : Payment)

/-- Embedding of `clinicReducer`: ADD appends the payload to its collection,
UPDATE maps over its collection replacing every record whose `id` equals the
payload's `id`. -/
def clinicReducer (state : ClinicState) (action : ClinicAction) : ClinicState :=
  match action with
  | .ADD_PATIENT payload =>
      { state with patients := state.patients ++ [payload] }
  | .UPDATE_PATIENT payload =>
      { state with patients :=
          state.patients.map (fun patient =>
            if patient.id == payload.id then payload else patient) }
  | .ADD_VISIT payload =>
      { state with visits := state.visits ++ [payload] }
  | .UPDATE_VISIT payload =>
      { state with visits :=
          state.visits.map (fun visit =>
            if visit.id == payload.id then payload else visit) }
  | .ADD_PAYMENT payload =>
      { state with payments := state.payments ++ [payload] }
  | .UPDATE_PAYMENT payload =>
      { state with payments :=
          state.payments.map (fun payment =>
            if payment.id == payload.id then payload else payment) }

/-- Embedding of one optional-field case of `sanitizeContact`:
`field?.trim() ? field : undefined` keeps the original (untrimmed) value when
its trim is a nonempty string, and yields `undefined` otherwise. -/
def sanitizeField (field : Option String) : Option String :=
  match field with
  | none => none
  | some value => if jsTrim value ≠ "" then some value else none

/-- Embedding of `sanitizeContact` (`ClinicContext.tsx`): `phone` kept as is,
each optional field blanked to `none` when empty or whitespace-only. -/
def sanitizeContact (contact : PatientContact) : PatientContact :=
  { phone := contact.phone
    email := sanitizeField contact.email
    address := sanitizeField contact.address
    emergencyContactName := sanitizeField contact.emergencyContactName
    emergencyContactPhone := sanitizeField contact.emergencyContactPhone }

/-- The `PaymentStatus` union of the payments and analytics pages. The string
literal `"partial"` of the source is embedded as the constructor
`partiallyPaid`. -/
inductive PaymentStatus where
  | paid
  | pending
  | partiallyPaid
deriving DecidableEq, Repr

/-- Embedding of `getPaymentStatus` (identical in `pages/analytics` and the
payments page): `paid` when `amountDue - amountPaid <= 0`, else `pending`
when `amountPaid === 0`, else partial. -/
def getPaymentStatus (amountDue : Int) (amountPaid : Int) : PaymentStatus :=
  let balance := amountDue - amountPaid
  if balance ≤ 0 then .paid
  else if amountPaid = 0 then .pending
  else .partiallyPaid

/-- The payment-record form of `getPaymentStatus` used by `paymentRows`. -/
def Payment.status (payment : Payment) : PaymentStatus :=
  getPaymentStatus payment.amountDue payment.amountPaid

/-- The derived outstanding balance of `paymentRows`
(`Math.max(payment.amountDue - payment.amountPaid, 0)`). -/
def paymentBalance (payment : Payment) : Int :=
  max (payment.amountDue - payment.amountPaid) 0

/-- C1: for every payment, the derived balance is the clamped difference, the
derived status is exactly one of paid / pending / partial following the
source rule, status is `paid` precisely when the clamped balance is `0`, and
the spec's example (due 1200, paid 800) yields balance 400 and status
partial. -/
theorem payment_status_balance_characterisation (p : Payment) :
    paymentBalance p = max (p.amountDue - p.amountPaid) 0 ∧
    (p.status = .paid ↔ paymentBalance p = 0) ∧
    (p.status = .pending ↔ 0 < paymentBalance p ∧ p.amountPaid = 0) ∧
    (p.status = .partiallyPaid ↔ 0 < paymentBalance p ∧ p.amountPaid ≠ 0) ∧
    getPaymentStatus 1200 800 = .partiallyPaid ∧
    max ((1200 : Int) - 800) 0 = 400 := by
  refine ⟨rfl, ?_, ?_, ?_, by decide, by decide⟩ <;>
    · simp only [Payment.status, getPaymentStatus, paymentBalance]
      split_ifs with h h2 <;> simp_all

/-- The follow-up urgency buckets of `getFollowUpStatus`
(`pages/patients/index.tsx`): the five labels, with the numeric part of the
"N days overdue" / "In N days" labels carried as a payload, plus the
"No date set" result for a missing follow-up date. -/
inductive FollowUpStatus where
  | noDateSet
  | overdue (days : Nat)
  | dueToday
  | dueSoon
  | next7Days
  | inDays (days : Int)
deriving DecidableEq, Repr

/-- The day delta of `getFollowUpStatus`: both dates are zeroed to midnight
with `setHours(0,0,0,0)`, so their time difference is an exact multiple of
`msInDay` and the source's `Math.round` of the quotient is the exact (floor)
quotient. -/
def followUpDiffDays (today : JsDate) (target : JsDate) : Int :=
  (target.atMidnight.getTime - today.atMidnight.getTime).fdiv msInDay

/-- Embedding of `getFollowUpStatus`: classify an optional follow-up date
against today by the day delta. -/
def getFollowUpStatus (today : JsDate) (isoDate : Option JsDate) : FollowUpStatus :=
  match isoDate with
  | none => .noDateSet
  | some target =>
      let diffDays := followUpDiffDays today target
      if diffDays < 0 then .overdue diffDays.natAbs
      else if diffDays = 0 then .dueToday
      else if diffDays ≤ 3 then .dueSoon
      else if diffDays ≤ 7 then .next7Days
      else .inDays diffDays

/-- After zeroing both dates to midnight, the computed day delta is exactly
the difference of the calendar day indices. -/
theorem followUpDiffDays_eq (today target : JsDate) :
    followUpDiffDays today target = target.day - today.day := by
  have hms : msInDay ≠ 0 := by decide
  have : target.atMidnight.getTime - today.atMidnight.getTime
      = (target.day - today.day) * msInDay := by
    simp [JsDate.atMidnight, JsDate.getTime, sub_mul]
  rw [followUpDiffDays, this, Int.mul_fdiv_cancel _ hms]

/-- Embedding of `upcomingFollowUps` (`pages/index.tsx`): visits that have a
follow-up date not earlier than the current instant, sorted by follow-up time
ascending, truncated to the first four. -/
def upcomingFollowUps (now : JsDate) (visits : List Visit) : List Visit :=
  ((visits.filter (fun visit =>
      match visit.followUpDate with
      | none => false
      | some d => decide (now.getTime ≤ d.getTime))).mergeSort
    (fun a b =>
      decide ((a.followUpDate.map JsDate.getTime).getD 0
        ≤ (b.followUpDate.map JsDate.getTime).getD 0))).take 4

/-- C2: with time-of-day zeroed on both dates, the urgency bucket is decided
by the literal day delta d: overdue (carrying |d|) when d < 0, due-today when
d = 0, due-soon when 1 ≤ d ≤ 3, next-7-days when 4 ≤ d ≤ 7, and the generic
"In d days" bucket when d > 7; the classification ignores the time-of-day of
both dates, and a follow-up 9 days away lands in the generic "In 9 days"
bucket. -/
theorem followup_urgency_buckets (today target : JsDate) :
    (target.day - today.day < 0 →
      getFollowUpStatus today (some target) = .overdue (target.day - today.day).natAbs) ∧
    (target.day - today.day = 0 →
      getFollowUpStatus today (some target) = .dueToday) ∧
    (1 ≤ target.day - today.day → target.day - today.day ≤ 3 →
      getFollowUpStatus today (some target) = .dueSoon) ∧
    (4 ≤ target.day - today.day → target.day - today.day ≤ 7 →
      getFollowUpStatus today (some target) = .next7Days) ∧
    (7 < target.day - today.day →
      getFollowUpStatus today (some target) = .inDays (target.day - today.day)) ∧
    (∀ r s : Int, getFollowUpStatus ⟨today.day, r⟩ (some ⟨target.day, s⟩)
      = getFollowUpStatus today (some target)) ∧
    getFollowUpStatus ⟨0, 0⟩ (some ⟨9, 0⟩) = .inDays 9 := by
  refine ⟨?_, ?_, ?_, ?_, ?_, ?_, by decide⟩ <;>
    simp only [getFollowUpStatus, followUpDiffDays_eq]
  · intro h
    rw [if_pos h]
  · intro h
    rw [if_neg (by omega), if_pos h]
  · intro h1 h3
    rw [if_neg (by omega), if_neg (by omega), if_pos h3]
  · intro h4 h7
    rw [if_neg (by omega), if_neg (by omega), if_neg (by omega), if_pos h7]
  · intro h
    rw [if_neg (by omega), if_neg (by omega), if_neg (by omega), if_neg (by omega)]
  · intro r s
    trivial

/-- Witness for the bucket theorem: a follow-up one day in the past is one
day overdue. -/
theorem followup_urgency_buckets_witness :
    getFollowUpStatus ⟨5, 0⟩ (some ⟨4, 0⟩) = .overdue 1 :=
  (followup_urgency_buckets ⟨5, 0⟩ ⟨4, 0⟩).1 (by decide)

/-- C9: a visit with no follow-up date receives no urgency bucket (the
classifier returns the "No date set" result), and every visit the dashboard's
upcoming-follow-ups view retains has a follow-up date. -/
theorem no_followup_excluded (today now : JsDate) (visits : List Visit) :
    getFollowUpStatus today none = .noDateSet ∧
    (upcomingFollowUps now visits).all (fun v => v.followUpDate.isSome) = true := by
  refine ⟨rfl, ?_⟩
  rw [List.all_eq_true]
  intro v hv
  have hv2 : v ∈ (visits.filter (fun visit =>
      match visit.followUpDate with
      | none => false
      | some d => decide (now.getTime ≤ d.getTime))) :=
    List.mem_mergeSort.mp (List.mem_of_mem_take hv)
  have hp := (List.mem_filter.mp hv2).2
  cases h : v.followUpDate with
  | none => rw [h] at hp; simp at hp
  | some d => simp [h]

/-- The `NewPatientInput` type: a `Patient` without `id`, timestamps and the
derived `age`. -/
structure NewPatientInput where
  firstName : String
  lastName : String
  gender : Gender
  birthDate : CalDate
  contact : PatientContact
  chronicConditions : List String
  allergies : List String
  notes : Option String
deriving DecidableEq, Repr

/-- The `UpdatePatientInput` partial (`Partial<NewPatientInput>`): `none`
means the field is absent from the partial and the existing value is kept.
For `notes`, which reaches the merged record only through the `...data`
spread, a present key carrying `undefined` (embedded `some none`) overwrites
the field. -/
structure UpdatePatientInput where
  firstName : Option String := none
  lastName : Option String := none
  gender : Option Gender := none
  birthDate : Option CalDate := none
  contact : Option PatientContact := none
  chronicConditions : Option (List String) := none
  allergies : Option (List String) := none
  notes : Option (Option String) := none
deriving DecidableEq, Repr

/-- The empty partial `{}`. -/
def emptyPatientUpdate : UpdatePatientInput := {}

/-- The `UpdateVisitInput` partial (`Partial<Omit<Visit, id | patientId |
createdAt | updatedAt>>`). Fields that reach the merged record only through
the `...data` spread and are optional on `Visit` (`notes`, `treatmentPlan`,
`followUpDate`, `attendingPhysician`) are double-optional: the outer layer is
key presence, the inner the stored optional value. -/
structure UpdateVisitInput where
  visitDate : Option JsDate := none
  reason : Option String := none
  complaints : Option (List String) := none
  diagnoses : Option (List String) := none
  notes : Option (Option String) := none
  treatmentPlan : Option (Option String) := none
  followUpDate : Option (Option JsDate) := none
  vitals : Option VisitVitals := none
  attendingPhysician : Option (Option String) := none
deriving DecidableEq, Repr

/-- The `UpdatePaymentInput` partial (`Partial<Omit<Payment, id | patientId |
recordedAt>>`). `visitId` reaches the merged record only through the
`...data` spread, so it is double-optional; the remaining fields are merged
with `??` and a present key is a plain value. -/
structure UpdatePaymentInput where
  visitId : Option (Option String) := none
  amountDue : Option Int := none
  amountPaid : Option Int := none
  method : Option PaymentMethod := none
  invoiceNumber : Option String := none
  notes : Option String := none
deriving DecidableEq, Repr

/-- Embedding of `addPatient` (`ClinicContext.tsx`). The impure inputs of the
source are explicit arguments: `today` (for `calculateAge`), `now` (the
`new Date().toISOString()` timestamp) and `newId` (the `createId("pat")`
result). Returns the created record and the state after the dispatched
`ADD_PATIENT`. -/
def addPatient (today : CalDate) (now : Nat) (newId : String)
    (state : ClinicState) (data : NewPatientInput) : Patient × ClinicState :=
  let patient : Patient :=
    { id := newId
      firstName := data.firstName
      lastName := data.lastName
      gender := data.gender
      birthDate := data.birthDate
      age := calculateAge today data.birthDate
      contact := sanitizeContact data.contact
      chronicConditions := data.chronicConditions
      allergies := data.allergies
      notes := data.notes
      createdAt := now
      updatedAt := now }
  (patient, clinicReducer state (.ADD_PATIENT patient))

/-- The merged record `updatedPatient` of `updatePatient`. The source builds
`{...existing, ...data, contact, chronicConditions, allergies, birthDate,
age, updatedAt}`; `data.contact` is a full `PatientContact` when present (its
spread over `existing.contact` is then the block itself), and `age` is
recomputed exactly when the partial carries a birth date
(`data.birthDate ? calculateAge(data.birthDate) : existing.age`). -/
def applyPatientUpdate (today : CalDate) (now : Nat)
    (existing : Patient) (data : UpdatePatientInput) : Patient :=
  { existing with
    firstName := data.firstName.getD existing.firstName
    lastName := data.lastName.getD existing.lastName
    gender := data.gender.getD existing.gender
    notes := data.notes.getD existing.notes
    contact :=
      match data.contact with
      | some c => sanitizeContact c
      | none => existing.contact
    chronicConditions := data.chronicConditions.getD existing.chronicConditions
    allergies := data.allergies.getD existing.allergies
    birthDate := data.birthDate.getD existing.birthDate
    age :=
      match data.birthDate with
      | some d => calculateAge today d
      | none => existing.age
    updatedAt := now }

/-- Embedding of `updatePatient`: `undefined` (here `none`) and the untouched
state when the id is absent, otherwise the merged record and the state after
the dispatched `UPDATE_PATIENT`. -/
def updatePatient (today : CalDate) (now : Nat) (state : ClinicState)
    (id : String) (data : UpdatePatientInput) : Option Patient × ClinicState :=
  match state.patients.find? (fun patient => patient.id == id) with
  | none => (none, state)
  | some existing =>
      let updated := applyPatientUpdate today now existing data
      (some updated, clinicReducer state (.UPDATE_PATIENT updated))

/-- The merged record `updatedVisit` of `updateVisit`: arrays replaced
wholesale when provided, vitals shallow-merged field by field, the
spread-only fields overwritten by a present key. -/
def applyVisitUpdate (now : Nat) (existing : Visit) (data : UpdateVisitInput) : Visit :=
  { existing with
    visitDate := data.visitDate.getD existing.visitDate
    reason := data.reason.getD existing.reason
    complaints := data.complaints.getD existing.complaints
    diagnoses := data.diagnoses.getD existing.diagnoses
    notes := data.notes.getD existing.notes
    treatmentPlan := data.treatmentPlan.getD existing.treatmentPlan
    followUpDate := data.followUpDate.getD existing.followUpDate
    attendingPhysician := data.attendingPhysician.getD existing.attendingPhysician
    vitals :=
      match data.vitals with
      | some newVitals =>
          { bloodPressure := newVitals.bloodPressure.orElse (fun _ => existing.vitals.bloodPressure)
            heartRate := newVitals.heartRate.orElse (fun _ => existing.vitals.heartRate)
            temperature := newVitals.temperature.orElse (fun _ => existing.vitals.temperature)
            oxygenSaturation := newVitals.oxygenSaturation.orElse (fun _ => existing.vitals.oxygenSaturation) }
      | none => existing.vitals
    updatedAt := now }

/-- Embedding of `updateVisit`. -/
def updateVisit (now : Nat) (state : ClinicState)
    (id : String) (data : UpdateVisitInput) : Option Visit × ClinicState :=
  match state.visits.find? (fun visit => visit.id == id) with
  | none => (none, state)
  | some existing =>
      let updated := applyVisitUpdate now existing data
      (some updated, clinicReducer state (.UPDATE_VISIT updated))

/-- The merged record `updatedPayment` of `updatePayment`: the scalar fields
merged with `??`, `visitId` through the spread, `patientId` and `recordedAt`
untouched. -/
def applyPaymentUpdate (now : Nat) (existing : Payment) (data : UpdatePaymentInput) : Payment :=
  { existing with
    visitId := data.visitId.getD existing.visitId
    amountPaid := data.amountPaid.getD existing.amountPaid
    amountDue := data.amountDue.getD existing.amountDue
    method := data.method.getD existing.method
    notes :=
      match data.notes with
      | some s => some s
      | none => existing.notes
    invoiceNumber :=
      match data.invoiceNumber with
      | some s => some s
      | none => existing.invoiceNumber
    updatedAt := now }

/-- Embedding of `updatePayment`. -/
def updatePayment (now : Nat) (state : ClinicState)
    (id : String) (data : UpdatePaymentInput) : Option Payment × ClinicState :=
  match state.payments.find? (fun payment => payment.id == id) with
  | none => (none, state)
  | some existing =>
      let updated := applyPaymentUpdate now existing data
      (some updated, clinicReducer state (.UPDATE_PAYMENT updated))

/-- Embedding of the load path (`loadInitialState` applied to the
`JSON.parse` of a stringified state; the JSON round-trip itself is the
identity on these records, optional fields dropping out as `undefined` and
returning as `none`): every patient's `age` is recomputed from `birthDate`
and its contact block re-sanitized; visits and payments are taken as is. -/
def rehydrate (today : CalDate) (parsed : ClinicState) : ClinicState :=
  { parsed with
    patients := parsed.patients.map (fun patient =>
      { patient with
        age := calculateAge today patient.birthDate
        contact := sanitizeContact patient.contact }) }

/-- Replacing, in a list, every record whose key equals the key of a found
record leaves the replacement findable under the original search key: the
first match sits at the same position, and earlier entries (whose keys
differ) are untouched. Shared by the update-path proofs. -/
theorem find?_map_replace {α : Type} (key : α → String) (upd : α) (id : String)
    (l : List α) :
    ∀ existing : α, l.find? (fun q => key q == id) = some existing →
      key upd = key existing →
      (l.map (fun q => if key q == key upd then upd else q)).find?
        (fun q => key q == id) = some upd := by
  induction l with
  | nil =>
      intro ex hfind _
      simp at hfind
  | cons a t ih =>
      intro ex hfind hid
      simp only [List.find?_cons] at hfind
      cases hb : (key a == id) with
      | true =>
          rw [hb] at hfind
          have ha : a = ex := by simpa using hfind
          subst ha
          have h1 : (key a == key upd) = true := beq_iff_eq.mpr hid.symm
          have h2 : (key upd == id) = true := by
            rw [hid]
            exact hb
          simp only [List.map_cons, List.find?_cons, h1, if_true, h2]
      | false =>
          simp only [hb] at hfind
          have hex : (key ex == id) = true :=
            List.find?_some (p := fun q => key q == id) hfind
          have h1 : (key a == key upd) = false := by
            rw [hid, beq_iff_eq.mp hex]
            exact hb
          simp only [List.map_cons, List.find?_cons, h1, Bool.false_eq_true,
            if_false, hb]
          exact ih ex hfind hid

/-- C10: every reducer action touches only its target collection; an ADD
appends exactly one record at the end, and an UPDATE keeps the collection's
length and each position (position i holds the payload when the record there
carried the payload's id, and the untouched record otherwise), so insertion
order is preserved by every action. -/
theorem reducer_frame_and_order (st : ClinicState) (p : Patient) (v : Visit)
    (pay : Payment) (i : Nat) :
    (clinicReducer st (.ADD_PATIENT p)).patients = st.patients ++ [p] ∧
    (clinicReducer st (.ADD_PATIENT p)).visits = st.visits ∧
    (clinicReducer st (.ADD_PATIENT p)).payments = st.payments ∧
    (clinicReducer st (.ADD_VISIT v)).visits = st.visits ++ [v] ∧
    (clinicReducer st (.ADD_VISIT v)).patients = st.patients ∧
    (clinicReducer st (.ADD_VISIT v)).payments = st.payments ∧
    (clinicReducer st (.ADD_PAYMENT pay)).payments = st.payments ++ [pay] ∧
    (clinicReducer st (.ADD_PAYMENT pay)).patients = st.patients ∧
    (clinicReducer st (.ADD_PAYMENT pay)).visits = st.visits ∧
    (clinicReducer st (.UPDATE_PATIENT p)).visits = st.visits ∧
    (clinicReducer st (.UPDATE_PATIENT p)).payments = st.payments ∧
    (clinicReducer st (.UPDATE_PATIENT p)).patients.length = st.patients.length ∧
    (clinicReducer st (.UPDATE_PATIENT p)).patients[i]?
      = st.patients[i]?.map (fun q => if q.id == p.id then p else q) ∧
    (clinicReducer st (.UPDATE_VISIT v)).patients = st.patients ∧
    (clinicReducer st (.UPDATE_VISIT v)).payments = st.payments ∧
    (clinicReducer st (.UPDATE_VISIT v)).visits.length = st.visits.length ∧
    (clinicReducer st (.UPDATE_VISIT v)).visits[i]?
      = st.visits[i]?.map (fun q => if q.id == v.id then v else q) ∧
    (clinicReducer st (.UPDATE_PAYMENT pay)).visits = st.visits ∧
    (clinicReducer st (.UPDATE_PAYMENT pay)).patients = st.patients ∧
    (clinicReducer st (.UPDATE_PAYMENT pay)).payments.length = st.payments.length ∧
    (clinicReducer st (.UPDATE_PAYMENT pay)).payments[i]?
      = st.payments[i]?.map (fun q => if q.id == pay.id then pay else q) := by
  and_intros <;> simp [clinicReducer, List.getElem?_map]

/-- C6: each of the three update operations, pointed at an id absent from its
collection, returns `none` (never throws) and leaves the entire clinic state
untouched. -/
theorem update_missing_id_noop (today : CalDate) (now : Nat) (st : ClinicState)
    (id : String) (pd : UpdatePatientInput) (vd : UpdateVisitInput)
    (payd : UpdatePaymentInput) :
    (st.patients.find? (fun q => q.id == id) = none →
      updatePatient today now st id pd = (none, st)) ∧
    (st.visits.find? (fun q => q.id == id) = none →
      updateVisit now st id vd = (none, st)) ∧
    (st.payments.find? (fun q => q.id == id) = none →
      updatePayment now st id payd = (none, st)) := by
  refine ⟨fun h => ?_, fun h => ?_, fun h => ?_⟩ <;>
    simp [updatePatient, updateVisit, updatePayment, h]

/-- Witness for the missing-id theorem: every update on the empty state is a
no-op returning `none`. -/
theorem update_missing_id_noop_witness :
    updatePatient ⟨2025, 10, 1⟩ 5 ⟨[], [], []⟩ "pat-404" {} = (none, ⟨[], [], []⟩) ∧
    updateVisit 5 ⟨[], [], []⟩ "visit-404" {} = (none, ⟨[], [], []⟩) ∧
    updatePayment 5 ⟨[], [], []⟩ "pay-404" {} = (none, ⟨[], [], []⟩) :=
  ⟨(update_missing_id_noop ⟨2025, 10, 1⟩ 5 ⟨[], [], []⟩ "pat-404" {} {} {}).1 rfl,
   (update_missing_id_noop ⟨2025, 10, 1⟩ 5 ⟨[], [], []⟩ "visit-404" {} {} {}).2.1 rfl,
   (update_missing_id_noop ⟨2025, 10, 1⟩ 5 ⟨[], [], []⟩ "pay-404" {} {} {}).2.2 rfl⟩

/-- C3: for an existing payment id, `updatePayment` accepts an `amountPaid`
strictly above the (possibly simultaneously updated) `amountDue` — the store
performs no validation and returns the merged record — and the balance then
derived for that payment is the clamp at `0`, never negative. -/
theorem overpayment_accepted_balance_clamped (now : Nat) (st : ClinicState)
    (id : String) (data : UpdatePaymentInput) (existing : Payment) (paid : Int)
    (hfind : st.payments.find? (fun q => q.id == id) = some existing)
    (hpaid : data.amountPaid = some paid)
    (hover : data.amountDue.getD existing.amountDue < paid) :
    ∃ updated,
      (updatePayment now st id data).1 = some updated ∧
      (updatePayment now st id data).2.payments.find? (fun q => q.id == id)
        = some updated ∧
      updated.amountPaid = paid ∧
      paymentBalance updated = 0 := by
  refine ⟨applyPaymentUpdate now existing data, ?_, ?_, ?_, ?_⟩
  · simp [updatePayment, hfind]
  · simp only [updatePayment, hfind]
    exact find?_map_replace (fun (q : Payment) => q.id)
      (applyPaymentUpdate now existing data) id st.payments existing hfind rfl
  · simp [applyPaymentUpdate, hpaid]
  · simp only [paymentBalance, applyPaymentUpdate, hpaid, Option.getD_some]
    exact max_eq_right (by omega)

/-- Witness for the overpayment theorem: paying 150 against a 100 bill is
accepted and leaves a zero balance. -/
theorem overpayment_accepted_balance_clamped_witness :
    ∃ updated,
      (updatePayment 7
          ⟨[], [], [{ id := "pay-1", patientId := "pat-1", visitId := none,
                      amountDue := 100, amountPaid := 0, method := .cash,
                      invoiceNumber := none, recordedAt := 0, updatedAt := 0,
                      notes := none }]⟩
          "pay-1" { amountPaid := some 150 }).1 = some updated ∧
      (updatePayment 7
          ⟨[], [], [{ id := "pay-1", patientId := "pat-1", visitId := none,
                      amountDue := 100, amountPaid := 0, method := .cash,
                      invoiceNumber := none, recordedAt := 0, updatedAt := 0,
                      notes := none }]⟩
          "pay-1" { amountPaid := some 150 }).2.payments.find?
        (fun q => q.id == "pay-1") = some updated ∧
      updated.amountPaid = 150 ∧
      paymentBalance updated = 0 :=
  overpayment_accepted_balance_clamped 7 _ "pay-1" { amountPaid := some 150 }
    { id := "pay-1", patientId := "pat-1", visitId := none, amountDue := 100,
      amountPaid := 0, method := .cash, invoiceNumber := none, recordedAt := 0,
      updatedAt := 0, notes := none }
    150 (by decide) rfl (by decide)

/-- C4: `addPatient` returns a record whose `age` is the age computed from
the input's birth date against the current date, whose `createdAt` equals
`updatedAt`, whose optional contact fields are dropped when empty or
whitespace-only and kept (untrimmed) otherwise while `phone` passes through,
and which is appended to the end of the patients collection, the other
collections untouched. -/
theorem add_patient_spec (today : CalDate) (now : Nat) (newId : String)
    (st : ClinicState) (data : NewPatientInput) :
    (addPatient today now newId st data).1.age = calculateAge today data.birthDate ∧
    (addPatient today now newId st data).1.createdAt
      = (addPatient today now newId st data).1.updatedAt ∧
    (addPatient today now newId st data).1.contact.phone = data.contact.phone ∧
    (addPatient today now newId st data).1.contact.email
      = data.contact.email.bind (fun s => if jsTrim s = "" then none else some s) ∧
    (addPatient today now newId st data).1.contact.address
      = data.contact.address.bind (fun s => if jsTrim s = "" then none else some s) ∧
    (addPatient today now newId st data).1.contact.emergencyContactName
      = data.contact.emergencyContactName.bind
          (fun s => if jsTrim s = "" then none else some s) ∧
    (addPatient today now newId st data).1.contact.emergencyContactPhone
      = data.contact.emergencyContactPhone.bind
          (fun s => if jsTrim s = "" then none else some s) ∧
    (addPatient today now newId st data).2.patients
      = st.patients ++ [(addPatient today now newId st data).1] ∧
    (addPatient today now newId st data).2.visits = st.visits ∧
    (addPatient today now newId st data).2.payments = st.payments := by
  and_intros <;>
    first
      | rfl
      | · simp only [addPatient, sanitizeContact, sanitizeField]
          cases data.contact.email <;>
            cases data.contact.address <;>
              cases data.contact.emergencyContactName <;>
                cases data.contact.emergencyContactPhone <;>
                  simp [ite_not]

/-- C5: on an existing patient id, `updatePatient` recomputes `age` with the
shared age function exactly when the partial carries a birth date and keeps
`age` otherwise; the empty partial changes nothing but `updatedAt`, and two
successive empty updates still agree with the original record on every field
but `updatedAt`. -/
theorem update_patient_age_recompute_and_idempotence (today : CalDate)
    (n1 n2 : Nat) (st : ClinicState) (id : String) (data : UpdatePatientInput)
    (existing : Patient)
    (hfind : st.patients.find? (fun q => q.id == id) = some existing) :
    (∀ d u, data.birthDate = some d →
      (updatePatient today n1 st id data).1 = some u →
        u.age = calculateAge today d) ∧
    (∀ u, data.birthDate = none →
      (updatePatient today n1 st id data).1 = some u → u.age = existing.age) ∧
    (updatePatient today n1 st id emptyPatientUpdate).1
      = some { existing with updatedAt := n1 } ∧
    (updatePatient today n2
        (updatePatient today n1 st id emptyPatientUpdate).2 id
        emptyPatientUpdate).1
      = some { existing with updatedAt := n2 } := by
  have hempty : applyPatientUpdate today n1 existing emptyPatientUpdate
      = { existing with updatedAt := n1 } := by
    simp [applyPatientUpdate, emptyPatientUpdate]
  refine ⟨?_, ?_, ?_, ?_⟩
  · intro d u hd hu
    simp only [updatePatient, hfind] at hu
    have : u = applyPatientUpdate today n1 existing data := by
      simpa using hu.symm
    subst this
    simp [applyPatientUpdate, hd]
  · intro u hd hu
    simp only [updatePatient, hfind] at hu
    have : u = applyPatientUpdate today n1 existing data := by
      simpa using hu.symm
    subst this
    simp [applyPatientUpdate, hd]
  · simp [updatePatient, hfind, hempty]
  · have hfind2 : (updatePatient today n1 st id emptyPatientUpdate).2.patients.find?
        (fun q => q.id == id) = some { existing with updatedAt := n1 } := by
      simp only [updatePatient, hfind, clinicReducer, hempty]
      exact find?_map_replace (fun (q : Patient) => q.id)
        { existing with updatedAt := n1 } id st.patients existing hfind rfl
    set st1 := (updatePatient today n1 st id emptyPatientUpdate).2 with hst1
    simp only [updatePatient, hfind2]
    simp [applyPatientUpdate, emptyPatientUpdate]

/-- Witness for the update-patient theorem: the empty partial on a concrete
one-patient store only refreshes `updatedAt`. -/
theorem update_patient_age_recompute_and_idempotence_witness :
    (updatePatient ⟨2025, 10, 1⟩ 3
        ⟨[{ id := "pat-1", firstName := "Amani", lastName := "Youssef",
            gender := .female, birthDate := ⟨1988, 1, 14⟩, age := 37,
            contact := { phone := "0790000000", email := none, address := none,
                         emergencyContactName := none,
                         emergencyContactPhone := none },
            chronicConditions := [], allergies := [], notes := none,
            createdAt := 0, updatedAt := 0 }], [], []⟩
        "pat-1" emptyPatientUpdate).1
      = some { id := "pat-1", firstName := "Amani", lastName := "Youssef",
               gender := .female, birthDate := ⟨1988, 1, 14⟩, age := 37,
               contact := { phone := "0790000000", email := none, address := none,
                            emergencyContactName := none,
                            emergencyContactPhone := none },
               chronicConditions := [], allergies := [], notes := none,
               createdAt := 0, updatedAt := 3 } :=
  (update_patient_age_recompute_and_idempotence ⟨2025, 10, 1⟩ 3 4 _ "pat-1"
    emptyPatientUpdate
    { id := "pat-1", firstName := "Amani", lastName := "Youssef",
      gender := .female, birthDate := ⟨1988, 1, 14⟩, age := 37,
      contact := { phone := "0790000000", email := none, address := none,
                   emergencyContactName := none, emergencyContactPhone := none },
      chronicConditions := [], allergies := [], notes := none,
      createdAt := 0, updatedAt := 0 }
    (by decide)).2.2.1

/-- A stored patient whose email is a single space: syntactically valid in
the persisted JSON layout, with `age` already consistent with the age
function at the reference date `⟨2025, 10, 1⟩`. -/
def storedWhitespacePatient : Patient :=
  { id := "pat-1", firstName := "Amani", lastName := "Youssef",
    gender := .female, birthDate := ⟨1988, 1, 14⟩, age := 37,
    contact := { phone := "0790000000", email := some " ", address := none,
                 emergencyContactName := none, emergencyContactPhone := none },
    chronicConditions := [], allergies := [], notes := none,
    createdAt := 0, updatedAt := 0 }

/-- Counterexample to C7 as stated: reloading a serialized state whose
patient carries a whitespace-only email keeps every `age` equal (so the age
re-derivation is not the discrepancy) yet changes the contact block — the
load path re-sanitizes contacts, so a non-age field is not byte-for-byte
preserved. -/
theorem roundtrip_not_byte_for_byte :
    (rehydrate ⟨2025, 10, 1⟩ ⟨[storedWhitespacePatient], [], []⟩).patients.map
        (fun p => p.age)
      = (⟨[storedWhitespacePatient], [], []⟩ : ClinicState).patients.map
        (fun p => p.age) ∧
    (rehydrate ⟨2025, 10, 1⟩ ⟨[storedWhitespacePatient], [], []⟩).patients.map
        (fun p => p.contact.email)
      ≠ (⟨[storedWhitespacePatient], [], []⟩ : ClinicState).patients.map
        (fun p => p.contact.email) := by
  constructor
  · decide
  · decide

/-- C7 amended: reloading a serialized state recomputes every patient's `age`
with the age function and re-sanitizes every patient's contact block; all
other patient fields, and all fields of visits and payments, are reproduced
byte-for-byte. -/
theorem roundtrip_reproduces_state (today : CalDate) (st : ClinicState) :
    (rehydrate today st).visits = st.visits ∧
    (rehydrate today st).payments = st.payments ∧
    (rehydrate today st).patients.map (fun p => p.age)
      = st.patients.map (fun p => calculateAge today p.birthDate) ∧
    (rehydrate today st).patients.map (fun p => p.contact)
      = st.patients.map (fun p => sanitizeContact p.contact) ∧
    (rehydrate today st).patients.map (fun p =>
        (p.id, p.firstName, p.lastName, p.gender, p.birthDate,
         p.chronicConditions, p.allergies, p.notes, p.createdAt, p.updatedAt))
      = st.patients.map (fun p =>
        (p.id, p.firstName, p.lastName, p.gender, p.birthDate,
         p.chronicConditions, p.allergies, p.notes, p.createdAt, p.updatedAt)) := by
  refine ⟨rfl, rfl, ?_, ?_, ?_⟩ <;> simp [rehydrate]

/-- The analytics filter selection (`pages/analytics`): selected genders,
age bounds, selected diagnoses (the `DISEASES` multi-select) and selected
chronic conditions. -/
structure AnalyticsFilters where
  selectedGenders : List Gender
  ageMin : Int
  ageMax : Int
  selectedDiseases : List String
  selectedChronicConditions : List String
deriving DecidableEq, Repr

/-- The per-patient predicate of `filteredPatients` (`pages/analytics`),
with `safeMin = max(0, ageMin)` and `safeMax = max(safeMin, ageMax)` inlined;
the diagnosis facet looks among the visits whose `patientId` is the
patient's, as `visitsGroupedByPatient` yields. -/
def passesFilters (filters : AnalyticsFilters) (visits : List Visit)
    (patient : Patient) : Bool :=
  if filters.selectedGenders ≠ [] ∧ patient.gender ∉ filters.selectedGenders then
    false
  else if patient.age < max 0 filters.ageMin ∨
      max (max 0 filters.ageMin) filters.ageMax < patient.age then
    false
  else if filters.selectedChronicConditions ≠ [] ∧
      ¬ (∀ c ∈ filters.selectedChronicConditions, c ∈ patient.chronicConditions) then
    false
  else if filters.selectedDiseases ≠ [] then
    decide (∃ v ∈ visits.filter (fun (w : Visit) => w.patientId == patient.id),
      ∃ d ∈ v.diagnoses, d ∈ filters.selectedDiseases)
  else true

/-- Embedding of `filteredPatients` (`pages/analytics`). -/
def filteredPatients (filters : AnalyticsFilters) (patients : List Patient)
    (visits : List Visit) : List Patient :=
  patients.filter (fun patient => passesFilters filters visits patient)

/-- C8: a patient is in the filtered analytics subset iff it passes every
selected facet: gender among the selected ones (when any are selected), age
inside the inclusive clamped range `[max(0, ageMin), max(max(0, ageMin),
ageMax)]`, chronic conditions a superset of the selected ones, and — when
diagnoses are selected — some visit of the patient carrying some selected
diagnosis. -/
theorem analytics_filter_membership (filters : AnalyticsFilters)
    (patients : List Patient) (visits : List Visit) (p : Patient) :
    p ∈ filteredPatients filters patients visits ↔
      p ∈ patients ∧
      (filters.selectedGenders = [] ∨ p.gender ∈ filters.selectedGenders) ∧
      max 0 filters.ageMin ≤ p.age ∧
      p.age ≤ max (max 0 filters.ageMin) filters.ageMax ∧
      (∀ c ∈ filters.selectedChronicConditions, c ∈ p.chronicConditions) ∧
      (filters.selectedDiseases ≠ [] →
        ∃ v ∈ visits, v.patientId = p.id ∧
          ∃ d ∈ v.diagnoses, d ∈ filters.selectedDiseases) := by
  rw [filteredPatients, List.mem_filter, and_congr_right_iff]
  intro _
  rw [passesFilters]
  split_ifs with h1 h2 h3 h4
  · simp only [Bool.false_eq_true, false_iff]
    rintro ⟨hg, -⟩
    rcases hg with hg | hg
    · exact h1.1 hg
    · exact h1.2 hg
  · simp only [Bool.false_eq_true, false_iff]
    rintro ⟨-, hmin, hmax, -⟩
    rcases h2 with h | h <;> omega
  · simp only [Bool.false_eq_true, false_iff]
    rintro ⟨-, -, -, hc, -⟩
    exact h3.2 hc
  · rw [decide_eq_true_iff]
    push_neg at h1 h2 h3
    constructor
    · rintro ⟨v, hv, d, hd, hds⟩
      have hv2 := List.mem_filter.mp hv
      refine ⟨?_, by omega, by omega, ?_, fun _ => ⟨v, hv2.1, beq_iff_eq.mp hv2.2, d, hd, hds⟩⟩
      · by_cases hg : filters.selectedGenders = []
        · exact Or.inl hg
        · exact Or.inr (h1 hg)
      · by_cases hc : filters.selectedChronicConditions = []
        · intro c hc2
          rw [hc] at hc2
          simp at hc2
        · exact h3 hc
    · rintro ⟨-, -, -, -, hdis⟩
      obtain ⟨v, hv, hpid, d, hd, hds⟩ := hdis h4
      exact ⟨v, List.mem_filter.mpr ⟨hv, beq_iff_eq.mpr hpid⟩, d, hd, hds⟩
  · simp only [true_iff]
    push_neg at h1 h2 h3 h4
    refine ⟨?_, by omega, by omega, ?_, fun hne => absurd h4 hne⟩
    · by_cases hg : filters.selectedGenders = []
      · exact Or.inl hg
      · exact Or.inr (h1 hg)
    · by_cases hc : filters.selectedChronicConditions = []
      · intro c hc2
        rw [hc] at hc2
        simp at hc2
      · exact h3 hc

end Clinic
